import Mathlib

/-!
# Verification of the causal-trainer statistics pipeline

Shallow embedding of the two source files of the repository:

* `scripts/generate_report_stats.py` — field resolution for the dual
  record shapes (sqlite rows vs. exported-dataset dicts), the
  `calculate_stats` aggregation loop, the guarded percentages of
  `print_stats`, the unguarded divisions of `generate_latex_tables`,
  and the verification pass of `main`.
* `notebooks/dataset_analysis.py` — the file loader `_load_questions`
  with its combined-file skip and fallback, the tolerant nested
  accessor `_get`, and the normalizers `_norm_str` / `_norm_difficulty`.

Modelling conventions:

* Python `None` and an absent key are both modelled as `Option.none`
  (the scripts only ever read fields through `.get` / `or`, which do
  not distinguish the two).
* A `defaultdict(int)` counter that is only ever built by `+= 1` is
  modelled as the list of keys in increment order; the count at a key
  is `List.count`, and Python's `sum(d.values())` is the list length.
* Python float arithmetic on percentages is modelled exactly over `ℚ`.
* Code that raises (`ZeroDivisionError`, `KeyError`, `AttributeError`)
  is modelled in `Except String`.
-/

namespace CausalTrainer

/-- `str.lower()`, character by character (computable in the kernel,
unlike `String.toLower`). -/
def pyLower (s : String) : String := ⟨s.data.map Char.toLower⟩

/-- `str.strip()`: drop leading and trailing whitespace. -/
def pyStrip (s : String) : String :=
  ⟨(((s.data.dropWhile Char.isWhitespace).reverse).dropWhile Char.isWhitespace).reverse⟩

/-- Python `a or b` on an optional string: `a` if it is truthy
(present and non-empty), else `b`. -/
def porStr (a b : Option String) : Option String :=
  match a with
  | some s => if s = "" then b else some s
  | none => b

/-- Python `a or b` on an optional number: `a` if it is truthy
(present and non-zero), else `b`. -/
def porQ (a b : Option ℚ) : Option ℚ :=
  match a with
  | some x => if x = 0 then b else some x
  | none => b

/-- The `trap` key of an exported-dataset case: absent, present but
not a dict, or a dict with an optional `type` key
(`generate_report_stats.py` line 67-68). -/
inductive TrapVal where
  | absent
  | notDict
  | dict (ty : Option String)
deriving DecidableEq, Repr

/-- An exported-dataset case (a JSON dict), with every key the script
reads: canonical keys, alternate keys, and the nested `trap` object. -/
structure DictCase where
  pearlLevel : Option String := none
  pearl_level : Option String := none
  difficulty : Option String := none
  groundTruth : Option String := none
  label : Option String := none
  trapType : Option String := none
  trap : TrapVal := .absent
  finalScore : Option ℚ := none
  final_score : Option ℚ := none
deriving DecidableEq, Repr

/-- A case handed to `calculate_stats`: either a `sqlite3.Row` (read
by column name, NULL modelled as `none`) or an exported-dataset dict. -/
inductive Case where
  | row (pearlLevel groundTruth difficulty trapType : Option String) (finalScore : Option ℚ)
  | dict (d : DictCase)
deriving DecidableEq, Repr

/-- `pearl = case.get('pearlLevel') or case.get('pearl_level')` for a
dict, `case['pearlLevel']` for a row (lines 64, 72). -/
def resolvePearl : Case → Option String
  | .row p _ _ _ _ => p
  | .dict d => porStr d.pearlLevel d.pearl_level

/-- `diff = case.get('difficulty')` / `case['difficulty']` (lines 65, 73). -/
def resolveDiff : Case → Option String
  | .row _ _ df _ _ => df
  | .dict d => d.difficulty

/-- `label = case.get('groundTruth') or case.get('label')` for a dict,
`case['groundTruth']` for a row (lines 66, 74). -/
def resolveLabel : Case → Option String
  | .row _ g _ _ _ => g
  | .dict d => porStr d.groundTruth d.label

/-- `trap_obj.get('type', '') if isinstance(trap_obj, dict) else ''`
(line 68). -/
def trapFromObj : TrapVal → String
  | .dict ty => ty.getD ""
  | _ => ""

/-- `trap = case.get('trapType') or (… trap_obj …)` for a dict,
`case['trapType'] or ''` for a row (lines 68, 75); always a string. -/
def resolveTrap : Case → String
  | .row _ _ _ t _ => (porStr t (some "")).getD ""
  | .dict d => (porStr d.trapType (some (trapFromObj d.trap))).getD ""

/-- `score = case.get('finalScore') or case.get('final_score')` for a
dict, `case['finalScore']` for a row (lines 69, 76). -/
def resolveScore : Case → Option ℚ
  | .row _ _ _ _ sc => sc
  | .dict d => porQ d.finalScore d.final_score

/-- `diff if diff in ['Easy', 'Medium', 'Hard'] else 'Unknown'`
(line 82): the case-sensitive difficulty normalization of
`calculate_stats`. -/
def normDiffStats (diff : Option String) : String :=
  match diff with
  | some s => if s = "Easy" ∨ s = "Medium" ∨ s = "Hard" then s else "Unknown"
  | none => "Unknown"

/-- `trap.split(':')[0] if ':' in str(trap) else str(trap)[:2]`
(line 97): the segment before the first `':'`, or the first two
characters. -/
def trapPrefix (t : String) : String :=
  if t.data.contains ':' then ⟨t.data.takeWhile (fun c => c != ':')⟩ else ⟨t.data.take 2⟩

/-- The score-range bucketing chain of `calculate_stats`
(lines 102-111), evaluated in source order. -/
def scoreBucket (x : ℚ) : String :=
  if x = 10 then "10.0"
  else if 9 ≤ x then "9.0-9.9"
  else if 8 ≤ x then "8.0-8.9"
  else if 6 ≤ x then "6.0-7.9"
  else "<6.0"

/-- The `stats` dict of `calculate_stats` (lines 44-59). Counters are
occurrence lists: the Python count at key `k` is `List.count k`, and
`sum(counter.values())` is the list length. -/
structure Stats where
  total : ℕ := 0
  pearl_level : List (Option String) := []
  difficulty : List String := []
  label : List (Option String) := []
  /-- models the Python counter keyed `'trap_prefix'` -/
  trap_pref : List String := []
  l1_labels : List (Option String) := []
  l2_labels : List (Option String) := []
  l3_labels : List (Option String) := []
  score_ranges : List String := []
  dbl_L1 : List String := []
  dbl_L2 : List String := []
  dbl_L3 : List String := []
deriving DecidableEq, Repr

/-- Lines 79-84: increment `pearl_level` and `difficulty`, then
`stats['difficulty_by_level'][pearl][diff_normalized] += 1`, which
raises `KeyError` unless `pearl` is one of the three literal keys
`'L1'`, `'L2'`, `'L3'` of that plain dict. -/
def dblUpdate (s : Stats) (pearl : Option String) (diffN : String) : Except String Stats :=
  let s1 : Stats :=
    { s with pearl_level := s.pearl_level ++ [pearl], difficulty := s.difficulty ++ [diffN] }
  if pearl = some "L1" then .ok { s1 with dbl_L1 := s1.dbl_L1 ++ [diffN] }
  else if pearl = some "L2" then .ok { s1 with dbl_L2 := s1.dbl_L2 ++ [diffN] }
  else if pearl = some "L3" then .ok { s1 with dbl_L3 := s1.dbl_L3 ++ [diffN] }
  else .error "KeyError: difficulty_by_level"

/-- Lines 87-111: label counters, trap-prefix counter (guarded only by
`if trap:`, i.e. trap non-empty), score-range counter (guarded only by
`score is not None`). -/
def postUpdate (s1 : Stats) (c : Case) : Stats :=
  let pearl := resolvePearl c
  let lab := resolveLabel c
  let trap := resolveTrap c
  let s2 : Stats :=
    { s1 with label := s1.label ++ [lab],
              l1_labels := if pearl = some "L1" then s1.l1_labels ++ [lab] else s1.l1_labels,
              l2_labels := if pearl = some "L2" then s1.l2_labels ++ [lab] else s1.l2_labels,
              l3_labels := if pearl = some "L3" then s1.l3_labels ++ [lab] else s1.l3_labels }
  let s3 : Stats :=
    { s2 with trap_pref :=
        if trap = "" then s2.trap_pref else s2.trap_pref ++ [trapPrefix trap] }
  { s3 with score_ranges :=
      match resolveScore c with
      | some x => s3.score_ranges ++ [scoreBucket x]
      | none => s3.score_ranges }

/-- One iteration of the `for case in cases` loop of `calculate_stats`
(lines 61-111). -/
def processCase (s : Stats) (c : Case) : Except String Stats :=
  match dblUpdate s (resolvePearl c) (normDiffStats (resolveDiff c)) with
  | .error e => .error e
  | .ok s1 => .ok (postUpdate s1 c)

/-- The loop of `calculate_stats`; an exception propagates out. -/
def calcLoop : List Case → Stats → Except String Stats
  | [], s => .ok s
  | c :: cs, s =>
    match processCase s c with
    | .ok s1 => calcLoop cs s1
    | .error e => .error e

/-- `stats = {'total': len(cases), …}` (lines 44-59). -/
def initStats (cases : List Case) : Stats := { total := cases.length }

/-- `calculate_stats(cases, source_name)` (lines 42-113). -/
def calculate_stats (cases : List Case) : Except String Stats :=
  calcLoop cases (initStats cases)

/-- `stats['pearl_level'][level]`: a pearl-level counter lookup at a
string key. -/
def statCount (l : List (Option String)) (k : String) : ℕ := l.count (some k)

/-- The guarded percentage of `print_stats`:
`count / total * 100 if total > 0 else 0` (lines 127, 133, 142, 165). -/
def pct (count total : ℕ) : ℚ :=
  if total > 0 then (count : ℚ) / (total : ℚ) * 100 else 0

/-- Pearl-level rows of `print_stats` (lines 124-128), each as
`(count, enclosing total, printed percentage)`. -/
def pearlRows (s : Stats) : List (ℕ × ℕ × ℚ) :=
  ["L1", "L2", "L3"].map fun lv =>
    (statCount s.pearl_level lv, s.total, pct (statCount s.pearl_level lv) s.total)

/-- Difficulty rows of `print_stats` (lines 130-134). -/
def diffRows (s : Stats) : List (ℕ × ℕ × ℚ) :=
  ["Easy", "Medium", "Hard"].map fun d =>
    (s.difficulty.count d, s.total, pct (s.difficulty.count d) s.total)

/-- `stats['difficulty_by_level'][lv]` as an occurrence list. -/
def dblList (s : Stats) (lv : String) : List String :=
  if lv = "L1" then s.dbl_L1 else if lv = "L2" then s.dbl_L2
  else if lv = "L3" then s.dbl_L3 else []

/-- One pearl level's difficulty-within-level rows of `print_stats`
(lines 136-143); the enclosing total is `stats['pearl_level'][level]`. -/
def dblRowsFor (s : Stats) (lv : String) : List (ℕ × ℕ × ℚ) :=
  ["Easy", "Medium", "Hard"].map fun d =>
    ((dblList s lv).count d, statCount s.pearl_level lv,
      pct ((dblList s lv).count d) (statCount s.pearl_level lv))

/-- All difficulty-by-pearl-level rows of `print_stats`. -/
def dblRows (s : Stats) : List (ℕ × ℕ × ℚ) :=
  dblRowsFor s "L1" ++ dblRowsFor s "L2" ++ dblRowsFor s "L3"

/-- Score-range rows of `print_stats` (lines 161-166), emitted only
under `if stats['score_ranges']:` (non-empty counter). -/
def scoreRows (s : Stats) : List (ℕ × ℕ × ℚ) :=
  if s.score_ranges.isEmpty then []
  else
    ["10.0", "9.0-9.9", "8.0-8.9", "6.0-7.9", "<6.0"].map fun r =>
      (s.score_ranges.count r, s.total, pct (s.score_ranges.count r) s.total)

/-- Every percentage-bearing entry `print_stats` derives (lines
116-166), as `(count, enclosing total, percentage)`; the label tables
print no percentage and so contribute nothing. -/
def print_stats (s : Stats) : List (ℕ × ℕ × ℚ) :=
  pearlRows s ++ diffRows s ++ dblRows s ++ scoreRows s

/-- The unguarded division `count / total * 100` of
`generate_latex_tables` (lines 180-184, 193-195): a zero denominator
raises `ZeroDivisionError`. -/
def latexDiv (count total : ℕ) : Except String ℚ :=
  if total = 0 then .error "ZeroDivisionError: division by zero"
  else .ok ((count : ℚ) / (total : ℚ) * 100)

/-- One row of the LaTeX pearl-level table (lines 178-185):
`(u, u_pct, v, v_pct, f, f_pct)`. -/
def latexPearlRow (lv : String) (u v f : Stats) : Except String (ℕ × ℚ × ℕ × ℚ × ℕ × ℚ) := do
  let uc := statCount u.pearl_level lv
  let up ← latexDiv uc u.total
  let vc := statCount v.pearl_level lv
  let vp ← latexDiv vc v.total
  let fc := statCount f.pearl_level lv
  let fp ← latexDiv fc f.total
  return (uc, up, vc, vp, fc, fp)

/-- One row of the LaTeX difficulty table (lines 191-198):
`(u, u_pct, v, v_pct, f)` — the final column is a fixed target, not a
derived percentage. -/
def latexDiffRow (d : String) (u v f : Stats) : Except String (ℕ × ℚ × ℕ × ℚ × ℕ) := do
  let uc := u.difficulty.count d
  let up ← latexDiv uc u.total
  let vc := v.difficulty.count d
  let vp ← latexDiv vc v.total
  let fc := f.difficulty.count d
  return (uc, up, vc, vp, fc)

/-- `generate_latex_tables(unval_stats, val_stats, final_stats)`
(lines 169-199): both tables' data rows, or the first exception. -/
def generate_latex_tables (u v f : Stats) :
    Except String (List (ℕ × ℚ × ℕ × ℚ × ℕ × ℚ) × List (ℕ × ℚ × ℕ × ℚ × ℕ)) := do
  let r1 ← latexPearlRow "L1" u v f
  let r2 ← latexPearlRow "L2" u v f
  let r3 ← latexPearlRow "L3" u v f
  let d1 ← latexDiffRow "Easy" u v f
  let d2 ← latexDiffRow "Medium" u v f
  let d3 ← latexDiffRow "Hard" u v f
  return ([r1, r2, r3], [d1, d2, d3])

/-- The verification pass of `main` (lines 236-239):
`total == sum(pearl_level.values()) == sum(difficulty.values())`,
printed as a pass or fail message, never raised. Counter value sums
are occurrence-list lengths. -/
def verificationMessage (s : Stats) : String :=
  if s.total = s.pearl_level.length ∧ s.pearl_level.length = s.difficulty.length
  then "All totals are consistent!" else "Totals are inconsistent!"

/-! ## `notebooks/dataset_analysis.py` -/

/-- The `annotations` sub-object of a question, with the keys the
script reads through `_get`. -/
structure Annotations where
  pearlLevel : Option String := none
  trapType : Option String := none
  difficulty : Option String := none
  subdomain : Option String := none
deriving DecidableEq, Repr

/-- A question record from an annotation JSON file. -/
structure Question where
  groundTruth : Option String := none
  scenario : Option String := none
  author : Option String := none
  annotations : Option Annotations := none
deriving DecidableEq, Repr

/-- `_get(q, "annotations", key)` (lines 81-87): walk the nested
structure, returning `none` when any level is missing. -/
def getAnnOpt (q : Question) (key : Annotations → Option String) : Option String :=
  match q.annotations with
  | some a => key a
  | none => none

/-- `_get(q, "annotations", key, default=d)`: as `getAnnOpt` with a
caller-specified default. -/
def getAnnD (q : Question) (key : Annotations → Option String) (d : String) : String :=
  (getAnnOpt q key).getD d

/-- `no_cases = [q for q in all_questions if q.get("groundTruth") == "NO"]`
(line 176). -/
def noCases (qs : List Question) : List Question :=
  qs.filter fun q => q.groundTruth == some "NO"

/-- `trap_counts = Counter(_get(q, "annotations", "trapType",
default="UNKNOWN") for q in no_cases)` (line 177), as an occurrence
list. -/
def trapCounts (qs : List Question) : List String :=
  (noCases qs).map fun q => getAnnD q Annotations.trapType "UNKNOWN"

/-- `_norm_str` (lines 102-105): `""` for `None`, else `strip`. -/
def norm_str (x : Option String) : String :=
  match x with
  | none => ""
  | some s => pyStrip s

/-- `_norm_difficulty` (lines 108-116). -/
def norm_difficulty (x : Option String) : String :=
  let s := pyLower (norm_str x)
  if s = "easy" ∨ s = "e" then "EASY"
  else if s = "medium" ∨ s = "med" ∨ s = "m" then "MEDIUM"
  else if s = "hard" ∨ s = "h" then "HARD"
  else "UNKNOWN"

/-- The difficulty mapping as the spec words it, for the refinement
check of C6: string-normalize, then a case-insensitive lookup in the
synonym table, anything else (including absence) mapping to
`UNKNOWN`. -/
def spec_norm_difficulty (x : Option String) : String :=
  let table : List (String × String) :=
    [("easy", "EASY"), ("e", "EASY"),
     ("medium", "MEDIUM"), ("med", "MEDIUM"), ("m", "MEDIUM"),
     ("hard", "HARD"), ("h", "HARD")]
  match table.lookup (pyLower (norm_str x)) with
  | some v => v
  | none => "UNKNOWN"

/-! ## The loader `_load_questions` (lines 23-78)

A file list stands for `sorted(data_dir.glob("*.json"))`: the
lexicographically sorted `.json` listing of the directory. Parsed
JSON content is either a bare array of records or an object with an
optional `questions` key. File-name tests are modelled on the
character list of the name, with `str.lower()` as a per-character
`Char.toLower`. -/

/-- Parsed content of an annotation JSON file. -/
inductive JContent where
  | arr (qs : List Question)
  | obj (questions : Option (List Question))
deriving DecidableEq, Repr

/-- A discovered source file: its name and parsed content. -/
structure JFile where
  name : String
  content : JContent
deriving DecidableEq, Repr

/-- `name.lower()` as a character list. -/
def lowerChars (s : String) : List Char := s.data.map Char.toLower

/-- Python `pat in s` on character lists: some suffix of `s` starts
with `pat`. -/
def hasSub (pat : List Char) : List Char → Bool
  | [] => pat.isEmpty
  | c :: cs => pat.isPrefixOf (c :: cs) || hasSub pat cs

/-- `"combined" in f.name.lower()` (line 46): the primary-pass skip
test. -/
def isCombinedName (s : String) : Bool := hasSub "combined".data (lowerChars s)

/-- Membership in `data_dir.glob("combined*.json")` (line 66): the
case-sensitive fallback glob. -/
def isCombinedGlobName (s : String) : Bool :=
  "combined".data.isPrefixOf s.data && ".json".data.isSuffixOf s.data

/-- The `author_map` substring-to-display-name table (lines 26-31),
in insertion order. -/
def author_map : List (String × String) :=
  [("deveen", "Deveen"), ("theodore-wu", "Theodore"), ("tony", "Tony"), ("juli", "Juli")]

/-- The `email_to_name` table for the combined-file fallback
(lines 34-39). -/
def email_to_name : List (String × String) :=
  [("deveen@stanford.edu", "Deveen"), ("wutheodo@stanford.edu", "Theodore"),
   ("lgren007@stanford.edu", "Tony"), ("julih@stanford.edu", "Juli")]

/-- Lines 55-62: the first `author_map` key that is a substring of
`f.name.lower()` gives the display name; otherwise the file name
itself is the author key. -/
def resolveAuthor (fname : String) : String :=
  match author_map.find? (fun p => hasSub p.1.data (lowerChars fname)) with
  | some p => p.2
  | none => fname

/-- `email_to_name.get(author_email, author_email)` (line 75). -/
def resolveEmail (e : String) : String :=
  match email_to_name.find? (fun p => p.1 == e) with
  | some p => p.2
  | none => e

/-- Primary-pass parse (line 52):
`data if isinstance(data, list) else data.get("questions", [])`. -/
def parsePrimary : JContent → List Question
  | .arr qs => qs
  | .obj o => o.getD []

/-- Fallback-pass parse (line 70): `data.get("questions", [])`, which
raises `AttributeError` when the parsed content is a bare list. -/
def parseFallback : JContent → Except String (List Question)
  | .arr _ => .error "AttributeError: list object has no attribute get"
  | .obj o => .ok (o.getD [])

/-- The primary pass (lines 44-62): skip combined-named files, parse
the rest in order, and attribute each parsed record to exactly one
author key. Returns `(all_questions, by_author)`, the latter flattened
to `(author key, record)` pairs in insertion order. -/
def loadPrimary : List JFile → List Question × List (String × Question)
  | [] => ([], [])
  | f :: fs =>
    if isCombinedName f.name then loadPrimary fs
    else
      let qs := parsePrimary f.content
      let rest := loadPrimary fs
      (qs ++ rest.1, qs.map (fun q => (resolveAuthor f.name, q)) ++ rest.2)

/-- `_load_questions` (lines 23-78): the primary pass, then — only if
it yielded zero records — the combined-file fallback, which attributes
each record through its `author` field (default `"Unknown"`). -/
def load_questions (files : List JFile) :
    Except String (List Question × List (String × Question)) :=
  let prim := loadPrimary files
  if prim.1.isEmpty then
    match files.filter (fun f => isCombinedGlobName f.name) with
    | [] => .ok prim
    | cf :: _ =>
      match parseFallback cf.content with
      | .error e => .error e
      | .ok qs =>
        .ok (prim.1 ++ qs,
             prim.2 ++ qs.map (fun q => (resolveEmail (q.author.getD "Unknown"), q)))
  else .ok prim

/-! ## Helper lemmas -/

/-- `_norm_difficulty` only ever returns one of four canonical values. -/
theorem norm_difficulty_mem (x : Option String) :
    norm_difficulty x = "EASY" ∨ norm_difficulty x = "MEDIUM" ∨
      norm_difficulty x = "HARD" ∨ norm_difficulty x = "UNKNOWN" := by
  simp only [norm_difficulty]
  split_ifs <;> simp

/-- The `calculate_stats` difficulty normalization only ever returns
one of its four values. -/
theorem normDiffStats_mem (x : Option String) :
    normDiffStats x = "Easy" ∨ normDiffStats x = "Medium" ∨
      normDiffStats x = "Hard" ∨ normDiffStats x = "Unknown" := by
  cases x with
  | none => simp [normDiffStats]
  | some s =>
    simp only [normDiffStats]
    split_ifs with h <;> tauto

/-- Processing a case succeeds exactly when its resolved pearl level is
one of the three literal keys of `difficulty_by_level`. -/
def pearlOk (c : Case) : Prop :=
  resolvePearl c = some "L1" ∨ resolvePearl c = some "L2" ∨ resolvePearl c = some "L3"

instance (c : Case) : Decidable (pearlOk c) := by
  unfold pearlOk; infer_instance

theorem processCase_ok_iff (s : Stats) (c : Case) :
    (∃ t, processCase s c = .ok t) ↔ pearlOk c := by
  by_cases h1 : resolvePearl c = some "L1" <;>
    by_cases h2 : resolvePearl c = some "L2" <;>
    by_cases h3 : resolvePearl c = some "L3" <;>
    simp [processCase, dblUpdate, pearlOk, h1, h2, h3]

theorem processCase_fields {s t : Stats} {c : Case} (h : processCase s c = .ok t) :
    t.total = s.total ∧
    t.pearl_level = s.pearl_level ++ [resolvePearl c] ∧
    t.difficulty = s.difficulty ++ [normDiffStats (resolveDiff c)] ∧
    t.trap_pref = s.trap_pref ++
      (if resolveTrap c = "" then [] else [trapPrefix (resolveTrap c)]) ∧
    t.score_ranges = s.score_ranges ++ ((resolveScore c).map scoreBucket).toList := by
  unfold processCase at h
  cases hd : dblUpdate s (resolvePearl c) (normDiffStats (resolveDiff c)) with
  | error e => rw [hd] at h; cases h
  | ok s1 =>
    rw [hd] at h
    cases h
    have hs1 : s1.total = s.total ∧ s1.pearl_level = s.pearl_level ++ [resolvePearl c] ∧
        s1.difficulty = s.difficulty ++ [normDiffStats (resolveDiff c)] ∧
        s1.trap_pref = s.trap_pref ∧ s1.score_ranges = s.score_ranges := by
      unfold dblUpdate at hd
      split_ifs at hd <;> (cases hd; simp)
    obtain ⟨a1, a2, a3, a4, a5⟩ := hs1
    unfold postUpdate
    cases hsc : resolveScore c <;>
      simp [hsc, a1, a2, a3, a4, a5] <;>
      split_ifs <;> simp

theorem calcLoop_ok_iff : ∀ (cs : List Case) (s : Stats),
    (∃ t, calcLoop cs s = .ok t) ↔ ∀ c ∈ cs, pearlOk c := by
  intro cs
  induction cs with
  | nil => intro s; simp [calcLoop]
  | cons c cs ih =>
    intro s
    cases hp : processCase s c with
    | ok s1 =>
      have hpo : pearlOk c := (processCase_ok_iff s c).mp ⟨s1, hp⟩
      simp [calcLoop, hp, ih s1, hpo]
    | error e =>
      have hpo : ¬ pearlOk c := by
        intro hpo
        obtain ⟨t, ht⟩ := (processCase_ok_iff s c).mpr hpo
        rw [hp] at ht; cases ht
      simp [calcLoop, hp, hpo]

theorem calcLoop_fields : ∀ (cs : List Case) (s t : Stats), calcLoop cs s = .ok t →
    t.total = s.total ∧
    t.pearl_level.length = s.pearl_level.length + cs.length ∧
    t.difficulty.length = s.difficulty.length + cs.length ∧
    t.score_ranges = s.score_ranges ++ (cs.filterMap resolveScore).map scoreBucket := by
  intro cs
  induction cs with
  | nil =>
    intro s t h
    simp only [calcLoop] at h
    cases h
    simp
  | cons c cs ih =>
    intro s t h
    simp only [calcLoop] at h
    cases hp : processCase s c with
    | error e => rw [hp] at h; cases h
    | ok s1 =>
      rw [hp] at h
      obtain ⟨f1, f2, f3, f4, f5⟩ := processCase_fields hp
      obtain ⟨g1, g2, g3, g4⟩ := ih s1 t h
      refine ⟨by rw [g1, f1], ?_, ?_, ?_⟩
      · rw [g2, f2]; simp; omega
      · rw [g3, f3]; simp; omega
      · rw [g4, f5]
        cases hsc : resolveScore c <;> simp [hsc, List.filterMap_cons]

/-- For scores not exceeding 10, the five claimed ranges coincide with
the bucket the if-chain selects, hence partition the score domain. -/
theorem scoreBucket_partition (x : ℚ) (hx : x ≤ 10) :
    (x = 10 ↔ scoreBucket x = "10.0") ∧
    (9 ≤ x ∧ x < 10 ↔ scoreBucket x = "9.0-9.9") ∧
    (8 ≤ x ∧ x < 9 ↔ scoreBucket x = "8.0-8.9") ∧
    (6 ≤ x ∧ x < 8 ↔ scoreBucket x = "6.0-7.9") ∧
    (x < 6 ↔ scoreBucket x = "<6.0") := by
  unfold scoreBucket
  split_ifs with a1 a2 a3 a4
  · exact ⟨iff_of_true a1 rfl,
      iff_of_false (fun hc => by linarith [hc.2]) (by decide),
      iff_of_false (fun hc => by linarith [hc.2]) (by decide),
      iff_of_false (fun hc => by linarith [hc.2]) (by decide),
      iff_of_false (fun hc => by linarith) (by decide)⟩
  · exact ⟨iff_of_false a1 (by decide),
      iff_of_true ⟨a2, lt_of_le_of_ne hx a1⟩ rfl,
      iff_of_false (fun hc => by linarith [hc.2]) (by decide),
      iff_of_false (fun hc => by linarith [hc.2]) (by decide),
      iff_of_false (fun hc => by linarith) (by decide)⟩
  · exact ⟨iff_of_false a1 (by decide),
      iff_of_false (fun hc => a2 hc.1) (by decide),
      iff_of_true ⟨a3, not_le.mp a2⟩ rfl,
      iff_of_false (fun hc => by linarith [hc.2]) (by decide),
      iff_of_false (fun hc => by linarith) (by decide)⟩
  · exact ⟨iff_of_false a1 (by decide),
      iff_of_false (fun hc => a2 hc.1) (by decide),
      iff_of_false (fun hc => a3 hc.1) (by decide),
      iff_of_true ⟨a4, not_le.mp a3⟩ rfl,
      iff_of_false (fun hc => by linarith) (by decide)⟩
  · exact ⟨iff_of_false a1 (by decide),
      iff_of_false (fun hc => a2 hc.1) (by decide),
      iff_of_false (fun hc => a3 hc.1) (by decide),
      iff_of_false (fun hc => a4 hc.1) (by decide),
      iff_of_true (not_le.mp a4) rfl⟩

theorem pct_spec (c t : ℕ) :
    (t = 0 → pct c t = 0) ∧ (0 < t → pct c t = (c : ℚ) / t * 100) := by
  unfold pct
  constructor
  · intro h; simp [h]
  · intro h; rw [if_pos h]

/-- Every entry `print_stats` derives has its percentage produced by
the guarded `pct`. -/
theorem print_stats_shape {s : Stats} {e : ℕ × ℕ × ℚ} (he : e ∈ print_stats s) :
    ∃ c t, e = (c, t, pct c t) := by
  unfold print_stats pearlRows diffRows dblRows dblRowsFor scoreRows at he
  by_cases hse : s.score_ranges.isEmpty <;>
    simp [hse] at he <;>
    rcases he with rfl | rfl | rfl | rfl | rfl | rfl | rfl | rfl | rfl | rfl | rfl | rfl |
      rfl | rfl | rfl | rfl | rfl | rfl | rfl | rfl <;>
    exact ⟨_, _, rfl⟩

theorem beq_false_of_ne {s t : String} (h : ¬ s = t) : (s == t) = false := by
  simp [h]

/-- The difficulty if-chain and the lookup table agree on every
string. -/
theorem diff_chain_eq_lookup (s : String) :
    (if s = "easy" ∨ s = "e" then "EASY"
     else if s = "medium" ∨ s = "med" ∨ s = "m" then "MEDIUM"
     else if s = "hard" ∨ s = "h" then "HARD"
     else "UNKNOWN") =
    (match ([("easy", "EASY"), ("e", "EASY"),
             ("medium", "MEDIUM"), ("med", "MEDIUM"), ("m", "MEDIUM"),
             ("hard", "HARD"), ("h", "HARD")] :
        List (String × String)).lookup s with
     | some v => v
     | none => "UNKNOWN") := by
  by_cases h1 : s = "easy" <;> by_cases h2 : s = "e" <;>
    by_cases h3 : s = "medium" <;> by_cases h4 : s = "med" <;> by_cases h5 : s = "m" <;>
    by_cases h6 : s = "hard" <;> by_cases h7 : s = "h" <;>
    simp_all [List.lookup]
  rw [beq_false_of_ne h1, beq_false_of_ne h2, beq_false_of_ne h3, beq_false_of_ne h4,
    beq_false_of_ne h5, beq_false_of_ne h6, beq_false_of_ne h7]

theorem norm_difficulty_eq_spec (x : Option String) :
    norm_difficulty x = spec_norm_difficulty x := by
  simp only [norm_difficulty, spec_norm_difficulty]
  exact diff_chain_eq_lookup (pyLower (norm_str x))

theorem hasSub_of_isPrefixOf {pat l : List Char} (h : pat.isPrefixOf l = true) :
    hasSub pat l = true := by
  cases l with
  | nil =>
    cases pat with
    | nil => rfl
    | cons c cs => simp [List.isPrefixOf] at h
  | cons c cs => simp [hasSub, h]

/-- A file the fallback glob matches is also skipped by the primary
pass: `combined*` names contain the substring `combined`. -/
theorem isCombinedName_of_glob {s : String} (h : isCombinedGlobName s = true) :
    isCombinedName s = true := by
  unfold isCombinedGlobName at h
  rw [Bool.and_eq_true] at h
  have hp : "combined".data.isPrefixOf s.data = true := h.1
  have hpre : "combined".data <+: s.data := List.isPrefixOf_iff_prefix.mp hp
  have hmap : "combined".data.map Char.toLower <+: s.data.map Char.toLower :=
    hpre.map Char.toLower
  have heq : "combined".data.map Char.toLower = "combined".data := by decide
  rw [heq] at hmap
  unfold isCombinedName lowerChars
  exact hasSub_of_isPrefixOf (List.isPrefixOf_iff_prefix.mpr hmap)

/-- The primary pass ignores a combined-named file wherever it sits in
the listing. -/
theorem loadPrimary_skip (l1 : List JFile) (cf : JFile) (l2 : List JFile)
    (h : isCombinedName cf.name = true) :
    loadPrimary (l1 ++ cf :: l2) = loadPrimary (l1 ++ l2) := by
  induction l1 with
  | nil => simp [loadPrimary, h]
  | cons f fs ih => simp only [List.cons_append, loadPrimary, List.append_eq, ih]

/-- The author-assignment pairs of the primary pass carry exactly the
loaded records, in order. -/
theorem loadPrimary_snd : ∀ files : List JFile,
    (loadPrimary files).2.map Prod.snd = (loadPrimary files).1 := by
  intro files
  induction files with
  | nil => rfl
  | cons f fs ih =>
    simp only [loadPrimary]
    split_ifs with h
    · exact ih
    · simp [ih, List.map_map, Function.comp]

/-- In a listing with no combined-named file, the fallback glob finds
nothing. -/
theorem glob_filter_nil {files : List JFile}
    (h : ∀ f ∈ files, isCombinedName f.name = false) :
    files.filter (fun f => isCombinedGlobName f.name) = [] := by
  rw [List.filter_eq_nil_iff]
  intro f hf hg
  have hcn := isCombinedName_of_glob hg
  rw [h f hf] at hcn
  cases hcn

/-- Grouping a pair list by first component and summing the group
sizes over the distinct keys recovers the list length. -/
theorem list_filter_key_sum (l : List (String × Question)) :
    ∑ k ∈ (l.map Prod.fst).toFinset, (l.filter (fun p => p.1 == k)).length
      = l.length := by
  have hcount : ∀ k, (l.filter (fun p => p.1 == k)).length = (l.map Prod.fst).count k := by
    intro k
    rw [List.count_eq_countP, List.countP_map, ← List.countP_eq_length_filter]
    rfl
  calc ∑ k ∈ (l.map Prod.fst).toFinset, (l.filter (fun p => p.1 == k)).length
      = ∑ k ∈ (l.map Prod.fst).toFinset, (l.map Prod.fst).count k :=
        Finset.sum_congr rfl fun k _ => hcount k
    _ = (l.map Prod.fst).length := by
        have hms := Multiset.toFinset_sum_count_eq ((l.map Prod.fst : List String) : Multiset String)
        simp only [Multiset.coe_count, Multiset.coe_card] at hms
        exact hms
    _ = l.length := by simp

/-- `generate_latex_tables` succeeds exactly when all three stage
totals are non-zero; otherwise the first unguarded division raises. -/
theorem latex_ok_iff (u v f : Stats) :
    (∃ r, generate_latex_tables u v f = .ok r) ↔
      (u.total ≠ 0 ∧ v.total ≠ 0 ∧ f.total ≠ 0) := by
  by_cases hu : u.total = 0 <;> by_cases hv : v.total = 0 <;> by_cases hf : f.total = 0 <;>
    simp [generate_latex_tables, latexPearlRow, latexDiffRow, latexDiv,
      hu, hv, hf, Bind.bind, Except.bind, Pure.pure, Except.pure]

/-! ## Concrete inputs used by counterexamples and witnesses -/

/-- A YES-labelled exported-dataset case carrying a trap type. -/
def caseYesTrap : Case :=
  .dict { pearlLevel := some "L1", groundTruth := some "YES", trapType := some "Abc" }

/-- An exported-dataset case with every optional field absent. -/
def caseAllAbsent : Case := .dict {}

/-- An exported-dataset case with a present `finalScore` of `0.0`. -/
def caseScoreZero : Case := .dict { pearlLevel := some "L1", finalScore := some 0 }

/-- A dict with a falsy canonical `finalScore` and a truthy alternate
`final_score`. -/
def dictZeroFive : DictCase := { finalScore := some 0, final_score := some 5 }

/-- An empty question record. -/
def qEmpty : Question := {}

/-- A database row with pearl level L2 and a score of 9. -/
def rowL2 : Case := .row (some "L2") (some "NO") (some "Hard") (some "TT:x") (some 9)

/-- The stats a successful `calculate_stats` run computes. -/
def statsOf (cases : List Case) : Stats :=
  ((calculate_stats cases).toOption).getD {}

/-- A YES-labelled question carrying an annotated trap type. -/
def qYes : Question :=
  { groundTruth := some "YES", annotations := some { trapType := some "T1" } }

/-! ## Claim theorems -/

/-- C6 counterexample: the difficulty normalization inside
`calculate_stats` maps `"easy"` to `"Unknown"`, while `_norm_difficulty`
maps it to `"EASY"`: the claimed case-insensitive synonym mapping does
not hold in every component that counts difficulties. -/
theorem claim6_counterexample :
    normDiffStats (some "easy") = "Unknown" ∧ norm_difficulty (some "easy") = "EASY" :=
  ⟨rfl, rfl⟩

/-- C6 (amended): `_norm_difficulty` is total, idempotent, and equals
the spec's case-insensitive synonym table; the difficulty
normalization of `calculate_stats` is also total and idempotent but is
a distinct, case-sensitive exact match. -/
theorem claim6_difficulty_normalization :
    (∀ x, norm_difficulty x = spec_norm_difficulty x) ∧
    (∀ x, norm_difficulty (some (norm_difficulty x)) = norm_difficulty x) ∧
    (∀ x, normDiffStats (some (normDiffStats x)) = normDiffStats x) := by
  refine ⟨norm_difficulty_eq_spec, ?_, ?_⟩
  · intro x
    rcases norm_difficulty_mem x with h | h | h | h <;> rw [h] <;> decide
  · intro x
    rcases normDiffStats_mem x with h | h | h | h <;> rw [h] <;> decide

/-- C3 counterexample: `calculate_stats` raises `KeyError` on a record
whose optional `pearlLevel` is absent, because
`stats['difficulty_by_level'][pearl]` indexes a plain dict whose only
keys are `'L1'`, `'L2'`, `'L3'`. -/
theorem claim3_counterexample :
    calculate_stats [caseAllAbsent] = .error "KeyError: difficulty_by_level" := rfl

/-- C3 (amended): missing `difficulty`, `groundTruth`, `trapType` and
`finalScore` are resolved to defaults and never raise — a
`calculate_stats` run succeeds exactly when every record's resolved
pearl level is one of `L1`, `L2`, `L3`; any other value, including
absence, raises `KeyError` in the difficulty-by-level cross-tabulation.
The nested accessor `_get` of `dataset_analysis` is total and yields
its default on missing structure. -/
theorem claim3_missing_fields (cases : List Case) :
    ((∃ s, calculate_stats cases = .ok s) ↔ ∀ c ∈ cases, pearlOk c) ∧
    (∀ q : Question, q.annotations = none →
      getAnnOpt q Annotations.pearlLevel = none ∧
        getAnnD q Annotations.trapType "UNKNOWN" = "UNKNOWN") ∧
    normDiffStats none = "Unknown" := by
  refine ⟨calcLoop_ok_iff cases (initStats cases), ?_, rfl⟩
  intro q hq
  simp [getAnnOpt, getAnnD, hq]

/-- C3 witness: a record set whose pearl levels are all valid is
processed without raising. -/
theorem claim3_witness : ∃ s, calculate_stats [rowL2] = .ok s :=
  (claim3_missing_fields [rowL2]).1.mpr (by decide)

/-- C8: for every record set whose statistics compute successfully, the
pearl-level and difficulty counter values sum to the total record
count (counters are occurrence lists, so the sum of counts is the
length), the verification message is the pass signal, and the
verification pass always yields one of its two signals rather than
raising. -/
theorem claim8_partition_sums (cases : List Case) (s : Stats)
    (h : calculate_stats cases = .ok s) :
    s.pearl_level.length = s.total ∧ s.difficulty.length = s.total ∧
    verificationMessage s = "All totals are consistent!" ∧
    ∀ t : Stats, verificationMessage t = "All totals are consistent!" ∨
      verificationMessage t = "Totals are inconsistent!" := by
  obtain ⟨g1, g2, g3, _⟩ := calcLoop_fields cases (initStats cases) s h
  have hp : s.pearl_level.length = s.total := by
    rw [g2, g1]; simp [initStats]
  have hd : s.difficulty.length = s.total := by
    rw [g3, g1]; simp [initStats]
  refine ⟨hp, hd, ?_, ?_⟩
  · unfold verificationMessage
    rw [if_pos ⟨hp.symm, hp.trans hd.symm⟩]
  · intro t
    unfold verificationMessage
    split_ifs <;> simp

/-- C8 witness: the invariant at a concrete one-row record set. -/
theorem claim8_witness :
    (statsOf [rowL2]).pearl_level.length = (statsOf [rowL2]).total ∧
    (statsOf [rowL2]).difficulty.length = (statsOf [rowL2]).total ∧
    verificationMessage (statsOf [rowL2]) = "All totals are consistent!" ∧
    ∀ t : Stats, verificationMessage t = "All totals are consistent!" ∨
      verificationMessage t = "Totals are inconsistent!" :=
  claim8_partition_sums [rowL2] (statsOf [rowL2]) rfl

/-- C2 counterexample: a record with `groundTruth = YES` and a
non-empty trap type contributes to the `trap_pref` counter of
`calculate_stats`, which never consults the ground truth. -/
theorem claim2_counterexample :
    (calculate_stats [caseYesTrap]).map (fun s => s.trap_pref) = .ok ["Ab"] ∧
    resolveLabel caseYesTrap = some "YES" := ⟨rfl, rfl⟩

/-- C2 (amended): the trap-type counter of `dataset_analysis` is
restricted to `groundTruth = NO` records — a YES or AMBIGUOUS record
contributes nothing — but the `trap_pref` counter of
`calculate_stats` counts every record with a non-empty resolved trap,
independent of its ground truth. -/
theorem claim2_trap_restriction (qs : List Question) (q : Question)
    (hq : q.groundTruth = some "YES" ∨ q.groundTruth = some "AMBIGUOUS")
    (s t : Stats) (c : Case) (hp : processCase s c = .ok t) :
    trapCounts (q :: qs) = trapCounts qs ∧
    t.trap_pref = s.trap_pref ++
      (if resolveTrap c = "" then [] else [trapPrefix (resolveTrap c)]) := by
  constructor
  · unfold trapCounts noCases
    rcases hq with h | h <;> simp [h]
  · exact (processCase_fields hp).2.2.2.1

/-- C2 witness: the restriction and the divergent update at concrete
inputs. -/
theorem claim2_witness :
    trapCounts [qYes] = trapCounts [] ∧
    (statsOf [caseYesTrap]).trap_pref =
      (initStats [caseYesTrap]).trap_pref ++
        (if resolveTrap caseYesTrap = "" then []
         else [trapPrefix (resolveTrap caseYesTrap)]) :=
  claim2_trap_restriction [] qYes (Or.inl rfl)
    (initStats [caseYesTrap]) (statsOf [caseYesTrap]) caseYesTrap rfl

/-- C4 counterexample: an exported-dataset record with a present
`finalScore` of `0.0` resolves through the truthiness-based `or` to an
absent score and falls into no bucket at all. -/
theorem claim4_counterexample :
    resolveScore caseScoreZero = none ∧
    (calculate_stats [caseScoreZero]).map (fun s => s.score_ranges) = .ok [] :=
  ⟨rfl, rfl⟩

/-- C4 (amended): for scores not exceeding 10 the five buckets
partition the range in the claimed priority order (in particular 8.0
lands in [8.0, 9.0) and 10.0 in the exact bucket), and the score-range
counter holds exactly one bucket per record with a truthy resolved
score; but in the exported-dataset shape a `finalScore` equal to 0 is
falsy, falls through to `final_score`, and is omitted from the buckets
when that too is absent. -/
theorem claim4_score_buckets (x : ℚ) (hx : x ≤ 10)
    (cases : List Case) (s : Stats) (h : calculate_stats cases = .ok s)
    (d : DictCase) (y : ℚ) (hy : d.finalScore = some y) :
    ((x = 10 ↔ scoreBucket x = "10.0") ∧
     (9 ≤ x ∧ x < 10 ↔ scoreBucket x = "9.0-9.9") ∧
     (8 ≤ x ∧ x < 9 ↔ scoreBucket x = "8.0-8.9") ∧
     (6 ≤ x ∧ x < 8 ↔ scoreBucket x = "6.0-7.9") ∧
     (x < 6 ↔ scoreBucket x = "<6.0")) ∧
    s.score_ranges = (cases.filterMap resolveScore).map scoreBucket ∧
    (y ≠ 0 → resolveScore (.dict d) = some y) ∧
    (y = 0 → resolveScore (.dict d) = d.final_score) := by
  refine ⟨scoreBucket_partition x hx, ?_, ?_, ?_⟩
  · have g4 := (calcLoop_fields cases (initStats cases) s h).2.2.2
    simpa [initStats] using g4
  · intro hy0
    simp [resolveScore, porQ, hy, hy0]
  · intro hy0
    simp [resolveScore, porQ, hy, hy0]

/-- C4 witness: the partition at the boundary score 8.0 and the falsy
fall-through at a concrete dict. -/
theorem claim4_witness :
    (((8 : ℚ) = 10 ↔ scoreBucket 8 = "10.0") ∧
     ((9 : ℚ) ≤ 8 ∧ (8 : ℚ) < 10 ↔ scoreBucket 8 = "9.0-9.9") ∧
     ((8 : ℚ) ≤ 8 ∧ (8 : ℚ) < 9 ↔ scoreBucket 8 = "8.0-8.9") ∧
     ((6 : ℚ) ≤ 8 ∧ (8 : ℚ) < 8 ↔ scoreBucket 8 = "6.0-7.9") ∧
     ((8 : ℚ) < 6 ↔ scoreBucket 8 = "<6.0")) ∧
    (statsOf [rowL2]).score_ranges =
      ([rowL2].filterMap resolveScore).map scoreBucket ∧
    ((0 : ℚ) ≠ 0 → resolveScore (.dict dictZeroFive) = some 0) ∧
    ((0 : ℚ) = 0 → resolveScore (.dict dictZeroFive) = dictZeroFive.final_score) :=
  claim4_score_buckets 8 (by norm_num) [rowL2] (statsOf [rowL2]) rfl dictZeroFive 0 rfl

/-- C9 counterexample: a value present under the canonical key
`finalScore` is overridden by the alternate key `final_score` when it
is falsy: `{finalScore: 0.0, final_score: 5.0}` resolves to `5.0`. -/
theorem claim9_counterexample :
    dictZeroFive.finalScore = some 0 ∧ resolveScore (.dict dictZeroFive) = some 5 :=
  ⟨rfl, rfl⟩

/-- C9 (amended): the ordered preference is by Python truthiness, not
presence — a truthy canonical value (non-empty string, non-zero
number) is never overridden by the alternate key, and the nested
`trap.type` is consulted only when `trapType` is falsy; but a falsy
canonical value (empty string, zero, null) falls through to the
alternate key. -/
theorem claim9_key_preference (d : DictCase) (sp sl st : String) (x : ℚ)
    (hp : d.pearlLevel = some sp) (hp2 : sp ≠ "")
    (hl : d.groundTruth = some sl) (hl2 : sl ≠ "")
    (ht : d.trapType = some st) (ht2 : st ≠ "")
    (hs : d.finalScore = some x) (hx : x ≠ 0) :
    resolvePearl (.dict d) = some sp ∧
    resolveLabel (.dict d) = some sl ∧
    resolveTrap (.dict d) = st ∧
    resolveScore (.dict d) = some x ∧
    (∀ d2 : DictCase, d2.pearlLevel = none ∨ d2.pearlLevel = some "" →
      resolvePearl (.dict d2) = d2.pearl_level) ∧
    (∀ d2 : DictCase, d2.finalScore = some 0 →
      resolveScore (.dict d2) = d2.final_score) ∧
    (∀ d2 : DictCase, d2.trapType = none ∨ d2.trapType = some "" →
      resolveTrap (.dict d2) = trapFromObj d2.trap) := by
  refine ⟨?_, ?_, ?_, ?_, ?_, ?_, ?_⟩
  · simp [resolvePearl, porStr, hp, hp2]
  · simp [resolveLabel, porStr, hl, hl2]
  · simp [resolveTrap, porStr, ht, ht2]
  · simp [resolveScore, porQ, hs, hx]
  · intro d2 h2
    rcases h2 with h2 | h2 <;> simp [resolvePearl, porStr, h2]
  · intro d2 h2
    simp [resolveScore, porQ, h2]
  · intro d2 h2
    rcases h2 with h2 | h2 <;> simp [resolveTrap, porStr, h2]

/-- A dict whose canonical keys all carry truthy values. -/
def dictTruthy : DictCase :=
  { pearlLevel := some "L3", pearl_level := some "L1",
    groundTruth := some "NO", label := some "YES",
    trapType := some "TT", trap := .dict (some "other"),
    finalScore := some 7, final_score := some 2 }

/-- C9 witness: a truthy canonical key wins over a present alternate
at a concrete dict. -/
theorem claim9_witness :
    resolvePearl (.dict dictTruthy) = some "L3" ∧
    resolveLabel (.dict dictTruthy) = some "NO" ∧
    resolveTrap (.dict dictTruthy) = "TT" ∧
    resolveScore (.dict dictTruthy) = some 7 ∧
    (∀ d2 : DictCase, d2.pearlLevel = none ∨ d2.pearlLevel = some "" →
      resolvePearl (.dict d2) = d2.pearl_level) ∧
    (∀ d2 : DictCase, d2.finalScore = some 0 →
      resolveScore (.dict d2) = d2.final_score) ∧
    (∀ d2 : DictCase, d2.trapType = none ∨ d2.trapType = some "" →
      resolveTrap (.dict d2) = trapFromObj d2.trap) :=
  claim9_key_preference dictTruthy "L3" "NO" "TT" 7
    rfl (by decide) rfl (by decide) rfl (by decide) rfl (by norm_num)

/-- C1 counterexample: on the empty record set every stage total is 0;
`print_stats` would print guarded zeros, but `generate_latex_tables`
raises `ZeroDivisionError` instead of yielding 0%. -/
theorem claim1_counterexample :
    calculate_stats [] = .ok (initStats []) ∧
    (initStats []).total = 0 ∧
    generate_latex_tables (initStats []) (initStats []) (initStats [])
      = .error "ZeroDivisionError: division by zero" :=
  ⟨rfl, rfl, rfl⟩

/-- C1 (amended): every percentage `print_stats` derives obeys the
guard — 0 on a zero enclosing total, `count / total * 100` otherwise,
never raising; `generate_latex_tables` instead divides unguarded and
succeeds exactly when all three stage totals are non-zero. -/
theorem claim1_percentage_guard (s : Stats) (e : ℕ × ℕ × ℚ)
    (he : e ∈ print_stats s) :
    (e.2.1 = 0 → e.2.2 = 0) ∧
    (0 < e.2.1 → e.2.2 = (e.1 : ℚ) / (e.2.1 : ℚ) * 100) ∧
    ∀ u v f : Stats,
      (∃ r, generate_latex_tables u v f = .ok r) ↔
        (u.total ≠ 0 ∧ v.total ≠ 0 ∧ f.total ≠ 0) := by
  obtain ⟨c, t, rfl⟩ := print_stats_shape he
  exact ⟨(pct_spec c t).1, (pct_spec c t).2, fun u v f => latex_ok_iff u v f⟩

/-- C1 witness: the guard at a concrete entry of `print_stats` on the
empty record set. -/
theorem claim1_witness :
    (((0, 0, 0) : ℕ × ℕ × ℚ).2.1 = 0 → ((0, 0, 0) : ℕ × ℕ × ℚ).2.2 = 0) ∧
    (0 < ((0, 0, 0) : ℕ × ℕ × ℚ).2.1 →
      ((0, 0, 0) : ℕ × ℕ × ℚ).2.2 =
        ((((0, 0, 0) : ℕ × ℕ × ℚ).1 : ℚ) / ((((0, 0, 0) : ℕ × ℕ × ℚ).2.1 : ℕ) : ℚ) * 100)) ∧
    ∀ u v f : Stats,
      (∃ r, generate_latex_tables u v f = .ok r) ↔
        (u.total ≠ 0 ∧ v.total ≠ 0 ∧ f.total ≠ 0) :=
  claim1_percentage_guard (initStats []) ((0, 0, 0) : ℕ × ℕ × ℚ) (by decide)

/-- A per-author file holding one record. -/
def fTony : JFile := ⟨"tony.json", .arr [qEmpty]⟩

/-- A combined file holding the same record in the object shape. -/
def fCombined : JFile := ⟨"combined.json", .obj (some [qEmpty])⟩

/-- C5 counterexample: a directory holding only a bare-array combined
file reaches the fallback pass, which calls `.get` on a list and
raises `AttributeError` instead of accepting the shape. -/
theorem claim5_counterexample :
    load_questions [⟨"combined.json", .arr [qEmpty]⟩]
      = .error "AttributeError: list object has no attribute get" := rfl

/-- C5 (amended): the primary pass accepts both valid shapes
transparently, but the fallback pass accepts only the
object-with-`questions` shape — `_load_questions` raises exactly when
the primary pass is empty and the first combined-glob file is a bare
array. -/
theorem claim5_accepted_shapes :
    (∀ qs, parsePrimary (.arr qs) = qs) ∧
    (∀ qs, parsePrimary (.obj (some qs)) = qs) ∧
    (∀ qs, parseFallback (.obj (some qs)) = .ok qs) ∧
    (∀ qs : List Question, parseFallback (.arr qs) =
      .error "AttributeError: list object has no attribute get") ∧
    ∀ files : List JFile,
      (∃ e, load_questions files = .error e) ↔
        ((loadPrimary files).1 = [] ∧
          ∃ cf rest, files.filter (fun f => isCombinedGlobName f.name) = cf :: rest ∧
            ∃ qs, cf.content = .arr qs) := by
  refine ⟨fun qs => rfl, fun qs => rfl, fun qs => rfl, fun qs => rfl, ?_⟩
  intro files
  unfold load_questions
  by_cases he : (loadPrimary files).1.isEmpty
  · have hnil : (loadPrimary files).1 = [] := by simpa using he
    cases hf : files.filter (fun f => isCombinedGlobName f.name) with
    | nil => simp [he, hf, hnil]
    | cons cf rest =>
      cases hc : cf.content with
      | arr qs =>
        simp only [he, hf, if_true, parseFallback, hc]
        constructor
        · intro _; exact ⟨hnil, cf, rest, rfl, qs, hc⟩
        · intro _; exact ⟨_, rfl⟩
      | obj o =>
        simp only [he, hf, if_true, parseFallback, hc]
        constructor
        · rintro ⟨e, hcon⟩; cases hcon
        · rintro ⟨-, cf2, rest2, hcr, qs2, hq⟩
          have hinj : cf = cf2 := by
            injection hcr with e1 e2
          rw [← hinj, hc] at hq
          cases hq
  · have hne : ¬ (loadPrimary files).1 = [] := by
      intro hcon
      rw [hcon] at he
      exact he rfl
    simp [he, hne]

/-- C7: a directory holding both a combined file and the equivalent
per-author files (the combined file carrying, in the documented object
shape, exactly the records the per-author files yield) loads the same
record count as the per-author files alone: the combined file is
skipped in the primary pass, and the fallback only re-reads it when
the per-author files yielded nothing. -/
theorem claim7_dedup (l1 l2 : List JFile) (cf : JFile)
    (h1 : ∀ f ∈ l1 ++ l2, isCombinedName f.name = false)
    (h2 : isCombinedName cf.name = true)
    (h3 : cf.content = .obj (some (loadPrimary (l1 ++ l2)).1)) :
    (load_questions (l1 ++ cf :: l2)).map (fun r => r.1.length)
      = (load_questions (l1 ++ l2)).map (fun r => r.1.length) := by
  have hskip := loadPrimary_skip l1 cf l2 h2
  unfold load_questions
  rw [hskip]
  by_cases he : (loadPrimary (l1 ++ l2)).1.isEmpty
  · have hnil : (loadPrimary (l1 ++ l2)).1 = [] := by simpa using he
    have ha : l1.filter (fun f => isCombinedGlobName f.name) = [] :=
      glob_filter_nil fun f hf => h1 f (by simp [hf])
    have hb : l2.filter (fun f => isCombinedGlobName f.name) = [] :=
      glob_filter_nil fun f hf => h1 f (by simp [hf])
    have hf2 : (l1 ++ l2).filter (fun f => isCombinedGlobName f.name) = [] := by
      simp [List.filter_append, ha, hb]
    by_cases hg : isCombinedGlobName cf.name
    · have hf1 : (l1 ++ cf :: l2).filter (fun f => isCombinedGlobName f.name) = [cf] := by
        simp [List.filter_append, List.filter_cons, ha, hb, hg]
      simp [he, hf1, hf2, h3, parseFallback, hnil, Except.map]
    · have hf1 : (l1 ++ cf :: l2).filter (fun f => isCombinedGlobName f.name) = [] := by
        simp [List.filter_append, List.filter_cons, ha, hb, hg]
      simp [he, hf1, hf2]
  · simp [he]

/-- C7 witness: one per-author file plus the equivalent combined file
yield the same count as the per-author file alone. -/
theorem claim7_witness :
    (load_questions [fTony, fCombined]).map (fun r => r.1.length)
      = (load_questions [fTony]).map (fun r => r.1.length) :=
  claim7_dedup [fTony] [] fCombined (by decide) (by decide) (by decide)

/-- C10: the author attribution of `_load_questions` partitions the
loaded records — the assignment pairs carry exactly the returned
record list, and the per-author bucket sizes summed over the distinct
author keys equal the total record count, in the primary and the
fallback pass alike. -/
theorem claim10_author_partition (files : List JFile) (all : List Question)
    (asg : List (String × Question)) (h : load_questions files = .ok (all, asg)) :
    asg.map Prod.snd = all ∧
    ∑ k ∈ (asg.map Prod.fst).toFinset, (asg.filter (fun p => p.1 == k)).length
      = all.length := by
  have hsnd : asg.map Prod.snd = all := by
    unfold load_questions at h
    by_cases he : (loadPrimary files).1.isEmpty
    · have hnil : (loadPrimary files).1 = [] := by simpa using he
      have hpnil : (loadPrimary files).2 = [] := by
        have hs := loadPrimary_snd files
        rw [hnil] at hs
        exact List.map_eq_nil_iff.mp hs
      cases hf : files.filter (fun f => isCombinedGlobName f.name) with
      | nil =>
        simp only [he, hf, if_true] at h
        have hpair := Except.ok.inj h
        have e1 : all = (loadPrimary files).1 := by rw [hpair]
        have e2 : asg = (loadPrimary files).2 := by rw [hpair]
        rw [e1, e2]
        exact loadPrimary_snd files
      | cons cf rest =>
        cases hc : cf.content with
        | arr qs => simp [he, hf, hc, parseFallback] at h
        | obj o =>
          simp only [he, hf, if_true, parseFallback, hc] at h
          have hpair := Except.ok.inj h
          have e1 : (loadPrimary files).1 ++ o.getD [] = all := congrArg Prod.fst hpair
          have e2 : (loadPrimary files).2 ++
              (o.getD []).map (fun q => (resolveEmail (q.author.getD "Unknown"), q)) = asg :=
            congrArg Prod.snd hpair
          rw [← e1, ← e2, hnil, hpnil]
          simp [List.map_map, Function.comp_def]
    · simp only [he, if_false] at h
      have hpair := Except.ok.inj h
      have e1 : all = (loadPrimary files).1 := by rw [hpair]
      have e2 : asg = (loadPrimary files).2 := by rw [hpair]
      rw [e1, e2]
      exact loadPrimary_snd files
  refine ⟨hsnd, ?_⟩
  rw [list_filter_key_sum asg, ← hsnd, List.length_map]

/-- C10 witness: the partition at a concrete one-file listing. -/
theorem claim10_witness :
    ([("Tony", qEmpty)] : List (String × Question)).map Prod.snd = [qEmpty] ∧
    ∑ k ∈ (([("Tony", qEmpty)] : List (String × Question)).map Prod.fst).toFinset,
      (([("Tony", qEmpty)] : List (String × Question)).filter (fun p => p.1 == k)).length
      = ([qEmpty] : List Question).length :=
  claim10_author_partition [fTony] [qEmpty] [("Tony", qEmpty)] rfl

end CausalTrainer


